import Mathlib

/-! LearnOpenGL: the textured-quad program (`main.cpp`)

A shallow embedding of `main`, `processInput` and `framebuffer_size_callback`.

The program is a straight line of calls into GLFW, GLAD, OpenGL and stb_image followed by
a frame loop.  The embedding keeps the program's control flow and records every call the
program issues, in order, as a `Call`; what the libraries answer (the window handle, the
loader result, the decoded image, the events of each frame) is supplied by an `Env`.
The frame loop may run for ever, so it takes a fuel argument and returns an `Option`.
-/

namespace LearnOpenGL

/-! ## Data of the program -/

/-- The four `unsigned int` handle variables of `main`. -/
inductive Handle where
  | VBO
  | VAO
  | EBO
  | texture
  deriving DecidableEq, Repr

/-- The GLFW / OpenGL constants that `main.cpp` passes by name. -/
inductive GLenum where
  | GLFW_CONTEXT_VERSION_MAJOR
  | GLFW_CONTEXT_VERSION_MINOR
  | GLFW_OPENGL_PROFILE
  | GLFW_OPENGL_CORE_PROFILE
  | GLFW_KEY_ESCAPE
  | GL_ARRAY_BUFFER
  | GL_ELEMENT_ARRAY_BUFFER
  | GL_STATIC_DRAW
  | GL_FLOAT
  | GL_FALSE
  | GL_TEXTURE_2D
  | GL_TEXTURE_WRAP_S
  | GL_TEXTURE_WRAP_T
  | GL_REPEAT
  | GL_MIRRORED_REPEAT
  | GL_TEXTURE_MIN_FILTER
  | GL_TEXTURE_MAG_FILTER
  | GL_LINEAR_MIPMAP_LINEAR
  | GL_LINEAR
  | GL_RGB
  | GL_UNSIGNED_BYTE
  | GL_COLOR_BUFFER_BIT
  | GL_TEXTURE0
  | GL_TRIANGLES
  | GL_UNSIGNED_INT
  deriving DecidableEq, Repr

/-- The width of a `float` in bytes (`sizeof(float)`): GL_FLOAT is IEEE binary32. -/
def sizeofFloat : Nat := 4

/-- The width of an `unsigned int` in bytes (`sizeof(unsigned int)`). -/
def sizeofUInt : Nat := 4

/-- The array `float triangle[]` of `main` (lines 39-45): four vertices, each a position
(x, y, z), a colour (r, g, b) and a texture coordinate (u, v).  Every literal is taken at
its decimal value.  The position and texture-coordinate literals (0, 1/2, 1 and their
negatives) are exactly representable as `float`; the two colour literals `0.7f` and `0.2f`
are rounded by the compiler, and nothing below depends on a colour value. -/
def triangle : List ℚ := [
  -- positions      -- colours        -- texCoords
  -0.5,  0.5, 0.0,   1.0, 1.0, 0.0,    0.0, 1.0,   -- top left 0
   0.5,  0.5, 0.0,   1.0, 0.7, 0.0,    1.0, 1.0,   -- top right 1
   0.5, -0.5, 0.0,   1.0, 0.2, 0.0,    1.0, 0.0,   -- bottom right 2
  -0.5, -0.5, 0.0,   1.0, 0.0, 0.0,    0.0, 0.0    -- bottom left 3
]

/-- The array `unsigned int indices[]` of `main` (lines 47-50). -/
def indices : List Nat := [
  0, 2, 3,
  0, 1, 2
]

/-- The arguments of one `glVertexAttribPointer(index, size, GL_FLOAT, GL_FALSE, stride,
(void*)offset)` call; `stride` and `offset` are in bytes, `size` in floats. -/
structure VertexAttrib where
  index : Nat
  size : Nat
  stride : Nat
  offset : Nat
  deriving DecidableEq, Repr

/-- Position attribute (line 67): `glVertexAttribPointer(0, 3, .., 8 * sizeof(float), 0)`. -/
def positionAttrib : VertexAttrib :=
  { index := 0, size := 3, stride := 8 * sizeofFloat, offset := 0 }

/-- Colour attribute (line 71): offset `3 * sizeof(float)`. -/
def colourAttrib : VertexAttrib :=
  { index := 1, size := 3, stride := 8 * sizeofFloat, offset := 3 * sizeofFloat }

/-- Texture coordinates attribute (line 75): offset `6 * sizeof(float)`. -/
def texCoordAttrib : VertexAttrib :=
  { index := 2, size := 2, stride := 8 * sizeofFloat, offset := 6 * sizeofFloat }

/-- The three attributes in the order `main` declares them. -/
def vertexAttribs : List VertexAttrib := [positionAttrib, colourAttrib, texCoordAttrib]

/-- The value of `sizeof(triangle)`: the byte count of the first `glBufferData` (line 60). -/
def sizeofTriangle : Nat := triangle.length * sizeofFloat

/-- The value of `sizeof(indices)`: the byte count of the second `glBufferData` (line 64). -/
def sizeofIndices : Nat := indices.length * sizeofUInt

/-- The `count` argument of `glDrawElements(GL_TRIANGLES, 6, GL_UNSIGNED_INT, 0)`
(line 134). -/
def drawCount : Nat := 6

/-! ## What the libraries answer -/

/-- The part of a GLFW window's state that the program reads: the should-close flag
(`glfwWindowShouldClose`) and the cached state of the escape key
(`glfwGetKey(window, GLFW_KEY_ESCAPE) == GLFW_PRESS`). -/
structure Window where
  shouldClose : Bool
  escapeKey : Bool
  deriving DecidableEq, Repr

/-- What one `glfwPollEvents` call delivers: the state of the escape key after the events,
whether the user asked to close the window, and a framebuffer resize if there was one. -/
structure Events where
  escapeKey : Bool
  closeRequested : Bool
  resize : Option (Int × Int)

/-- An image as `stbi_load(.., &width, &height, &nrChannels, 0)` returns it: with requested
components 0 the buffer holds `width * height * nrChannels` bytes. -/
structure Image where
  width : Nat
  height : Nat
  nrChannels : Nat
  deriving DecidableEq, Repr

/-- The answers of the outside world to one run of `main`. -/
structure Env where
  /-- result of `glfwCreateWindow`: `none` is NULL -/
  glfwCreateWindow : Option Window
  /-- result of `gladLoadGLLoader` -/
  gladLoadGLLoader : Bool
  /-- result of `stbi_load`: `none` is NULL -/
  stbi_load : Option Image
  /-- events delivered by the `glfwPollEvents` call of frame `i` -/
  events : Nat → Events

/-! ## The calls the program issues -/

/-- One call issued by the program, with the arguments `main.cpp` passes.
`<<` on `std::cout` is `print`.  `Shader` is the constructor call of line 37 and
`shader_use` the call `shader.use()` of line 118; the shader helper itself lives in
`shader.h`, outside `main.cpp`, so each of the two is recorded as one call and what the
helper does inside is not part of the record. -/
inductive Call where
  | glfwInit
  | glfwWindowHint (hint : GLenum) (value : GLenum ⊕ Nat)
  | glfwCreateWindow (width height : Nat) (title : String)
  | print (msg : String)
  | glfwTerminate
  | glfwMakeContextCurrent
  | glfwSetFramebufferSizeCallback
  | gladLoadGLLoader
  | Shader (vertexPath fragmentPath : String)
  | glGenBuffers (n : Nat) (h : Handle)
  | glGenVertexArrays (n : Nat) (h : Handle)
  | glBindVertexArray (h : Handle)
  | glBindBuffer (target : GLenum) (h : Handle)
  | glBufferData (target : GLenum) (size : Nat) (usage : GLenum)
  | glVertexAttribPointer (a : VertexAttrib)
  | glEnableVertexAttribArray (index : Nat)
  | glGenTextures (n : Nat) (h : Handle)
  | glBindTexture (target : GLenum) (h : Handle)
  | glTexParameteri (target pname param : GLenum)
  | stbi_load (path : String)
  | glTexImage2D (target : GLenum) (level : Nat) (internalformat : GLenum)
      (width height border : Nat) (format type : GLenum)
  | glGenerateMipmap (target : GLenum)
  | stbi_image_free
  | glfwWindowShouldClose
  | glfwGetKey (key : GLenum)
  | glfwSetWindowShouldClose (value : Bool)
  | glClearColor (r g b a : ℚ)
  | glClear (mask : GLenum)
  | glActiveTexture (unit : GLenum)
  | shader_use
  | glDrawElements (mode : GLenum) (count : Nat) (type : GLenum) (offset : Nat)
  | glfwSwapBuffers
  | glfwPollEvents
  | glViewport (x y width height : Int)
  | glDeleteVertexArrays (n : Nat) (h : Handle)
  | glDeleteBuffers (n : Nat) (h : Handle)
  | glDeleteTextures (n : Nat) (h : Handle)

namespace Call

/-- The handle a generate call writes, if the call is one. -/
def generated : Call → Option Handle
  | glGenBuffers _ h => some h
  | glGenVertexArrays _ h => some h
  | glGenTextures _ h => some h
  | _ => none

/-- The handle a delete call releases, if the call is one. -/
def deleted : Call → Option Handle
  | glDeleteBuffers _ h => some h
  | glDeleteVertexArrays _ h => some h
  | glDeleteTextures _ h => some h
  | _ => none

/-- The call generates handle `h`. -/
def generates (h : Handle) (c : Call) : Bool := c.generated == some h

/-- The call deletes handle `h`. -/
def deletes (h : Handle) (c : Call) : Bool := c.deleted == some h

/-- Any generate call. -/
def isGenerate (c : Call) : Bool := c.generated.isSome

/-- Any delete call. -/
def isDelete (c : Call) : Bool := c.deleted.isSome

/-- A `glBufferData` call. -/
def isBufferData : Call → Bool
  | glBufferData _ _ _ => true
  | _ => false

/-- A `glTexImage2D` call (the texture upload). -/
def isTexImage2D : Call → Bool
  | glTexImage2D _ _ _ _ _ _ _ _ => true
  | _ => false

/-- A `glGenerateMipmap` call. -/
def isGenerateMipmap : Call → Bool
  | glGenerateMipmap _ => true
  | _ => false

/-- The constructor call of the shader helper. -/
def isShaderLoad : Call → Bool
  | Shader _ _ => true
  | _ => false

/-- The loop-condition call `glfwWindowShouldClose(window)`. -/
def isLoopCheck : Call → Bool
  | glfwWindowShouldClose => true
  | _ => false

/-- A `glDrawElements` call. -/
def isDraw : Call → Bool
  | glDrawElements _ _ _ _ => true
  | _ => false

/-- A bind call (`glBindVertexArray`, `glBindBuffer`, `glBindTexture`). -/
def isBind : Call → Bool
  | glBindVertexArray _ => true
  | glBindBuffer _ _ => true
  | glBindTexture _ _ => true
  | _ => false

/-- The `glfwTerminate` call. -/
def isTerminate : Call → Bool
  | glfwTerminate => true
  | _ => false

/-- The message of a `std::cout <<` call. -/
def message : Call → Option String
  | print msg => some msg
  | _ => none

/-- The value a `glfwSetWindowShouldClose` call writes to the flag. -/
def closeFlagWritten : Call → Option Bool
  | glfwSetWindowShouldClose v => some v
  | _ => none

end Call

/-- Everything a trace prints, in order. -/
def printed (t : List Call) : List String := t.filterMap Call.message

/-! ## The library calls that change the window -/

/-- The call `glfwWindowShouldClose(window)`: reads the flag. -/
def glfwWindowShouldClose (w : Window) : Bool := w.shouldClose

/-- The call `glfwGetKey(window, GLFW_KEY_ESCAPE) == GLFW_PRESS`: reads the cached key
state. -/
def escapePressed (w : Window) : Bool := w.escapeKey

/-- The call `glfwSetWindowShouldClose(window, value)`: writes the flag. -/
def glfwSetWindowShouldClose (w : Window) (value : Bool) : Window :=
  { w with shouldClose := value }

/-- The function `framebuffer_size_callback` (lines 149-152). -/
def framebuffer_size_callback (width height : Int) : List Call :=
  [Call.glViewport 0 0 width height]

/-- The call `glfwSwapBuffers(window)`: leaves the window state as it is. -/
def glfwSwapBuffers (w : Window) : Window := w

/-- The call `glfwPollEvents()`: updates the key state, raises the should-close flag when
the user asked to close the window (it never clears the flag), and runs the framebuffer
size callback registered on line 28 when the window was resized. -/
def glfwPollEvents (ev : Events) (w : Window) : List Call × Window :=
  ((match ev.resize with
    | some (width, height) => framebuffer_size_callback width height
    | none => []),
   { shouldClose := w.shouldClose || ev.closeRequested, escapeKey := ev.escapeKey })

/-! ## The program -/

/-- The function `processInput` (lines 154-158): the calls it issues and the window state
it leaves. -/
def processInput (w : Window) : List Call × Window :=
  if escapePressed w then
    ([Call.glfwGetKey GLenum.GLFW_KEY_ESCAPE, Call.glfwSetWindowShouldClose true],
     glfwSetWindowShouldClose w true)
  else
    ([Call.glfwGetKey GLenum.GLFW_KEY_ESCAPE], w)

/-- The calls of one frame between `processInput` and `glfwSwapBuffers` (lines 110-134). -/
def drawCalls : List Call :=
  [ Call.glClearColor 0.2 0.3 0.3 1.0,
    Call.glClear GLenum.GL_COLOR_BUFFER_BIT,
    Call.glActiveTexture GLenum.GL_TEXTURE0,
    Call.glBindTexture GLenum.GL_TEXTURE_2D Handle.texture,
    Call.shader_use,
    Call.glBindVertexArray Handle.VAO,
    Call.glDrawElements GLenum.GL_TRIANGLES drawCount GLenum.GL_UNSIGNED_INT 0 ]

/-- The body of the render loop (lines 106-138) in frame `i`: the calls it issues and the
window state at its end. -/
def frame (env : Env) (i : Nat) (w : Window) : List Call × Window :=
  let input := processInput w
  let w1 := glfwSwapBuffers input.2
  let poll := glfwPollEvents (env.events i) w1
  (input.1 ++ drawCalls ++ [Call.glfwSwapBuffers, Call.glfwPollEvents] ++ poll.1, poll.2)

/-- The render loop `while (!glfwWindowShouldClose(window)) { .. }` (lines 104-139),
started at frame `i` with window state `w`.  Every evaluation of the loop condition is
recorded as a `glfwWindowShouldClose` call.  `none` means the fuel ran out before the
window was closed. -/
def renderLoop (env : Env) : Nat → Nat → Window → Option (List Call)
  | 0, _, _ => none
  | fuel + 1, i, w =>
    if glfwWindowShouldClose w then
      some [Call.glfwWindowShouldClose]
    else
      (renderLoop env fuel (i + 1) (frame env i w).2).map
        (fun rest => Call.glfwWindowShouldClose :: (frame env i w).1 ++ rest)

/-- Lines 15-20: GLFW initialisation up to and including `glfwCreateWindow`. -/
def initCalls : List Call :=
  [ Call.glfwInit,
    Call.glfwWindowHint GLenum.GLFW_CONTEXT_VERSION_MAJOR (Sum.inr 3),
    Call.glfwWindowHint GLenum.GLFW_CONTEXT_VERSION_MINOR (Sum.inr 3),
    Call.glfwWindowHint GLenum.GLFW_OPENGL_PROFILE (Sum.inl GLenum.GLFW_OPENGL_CORE_PROFILE),
    Call.glfwCreateWindow 800 600 "Learn OpenGL" ]

/-- Lines 27-31: making the context current, registering the resize callback and the
`gladLoadGLLoader` call. -/
def contextCalls : List Call :=
  [ Call.glfwMakeContextCurrent,
    Call.glfwSetFramebufferSizeCallback,
    Call.gladLoadGLLoader ]

/-- Lines 37-76: the shader, the three buffer objects, the two uploads and the vertex
attribute layout. -/
def bufferCalls : List Call :=
  [ Call.Shader "shaders/vertexShader.vert" "shaders/fragmentShader.frag",
    Call.glGenBuffers 1 Handle.VBO,
    Call.glGenBuffers 1 Handle.EBO,
    Call.glGenVertexArrays 1 Handle.VAO,
    Call.glBindVertexArray Handle.VAO,
    Call.glBindBuffer GLenum.GL_ARRAY_BUFFER Handle.VBO,
    Call.glBufferData GLenum.GL_ARRAY_BUFFER sizeofTriangle GLenum.GL_STATIC_DRAW,
    Call.glBindBuffer GLenum.GL_ELEMENT_ARRAY_BUFFER Handle.EBO,
    Call.glBufferData GLenum.GL_ELEMENT_ARRAY_BUFFER sizeofIndices GLenum.GL_STATIC_DRAW,
    Call.glVertexAttribPointer positionAttrib,
    Call.glEnableVertexAttribArray 0,
    Call.glVertexAttribPointer colourAttrib,
    Call.glEnableVertexAttribArray 1,
    Call.glVertexAttribPointer texCoordAttrib,
    Call.glEnableVertexAttribArray 2 ]

/-- Lines 79-99: the texture object, its parameters, and the image load with its two
branches. -/
def textureCalls (image : Option Image) : List Call :=
  [ Call.glGenTextures 1 Handle.texture,
    Call.glBindTexture GLenum.GL_TEXTURE_2D Handle.texture,
    Call.glTexParameteri GLenum.GL_TEXTURE_2D GLenum.GL_TEXTURE_WRAP_S GLenum.GL_REPEAT,
    Call.glTexParameteri GLenum.GL_TEXTURE_2D GLenum.GL_TEXTURE_WRAP_T
      GLenum.GL_MIRRORED_REPEAT,
    Call.glTexParameteri GLenum.GL_TEXTURE_2D GLenum.GL_TEXTURE_MIN_FILTER
      GLenum.GL_LINEAR_MIPMAP_LINEAR,
    Call.glTexParameteri GLenum.GL_TEXTURE_2D GLenum.GL_TEXTURE_MAG_FILTER GLenum.GL_LINEAR,
    Call.stbi_load "textures/metalbox_full.png" ] ++
  (match image with
   | some data =>
     [ Call.glTexImage2D GLenum.GL_TEXTURE_2D 0 GLenum.GL_RGB data.width data.height 0
         GLenum.GL_RGB GLenum.GL_UNSIGNED_BYTE,
       Call.glGenerateMipmap GLenum.GL_TEXTURE_2D ]
   | none => [Call.print "Failed to load texture"]) ++
  [Call.stbi_image_free]

/-- Lines 141-145: what `main` does after the render loop. -/
def teardownCalls : List Call :=
  [ Call.glDeleteVertexArrays 1 Handle.VAO,
    Call.glDeleteBuffers 1 Handle.VBO,
    Call.glDeleteBuffers 1 Handle.EBO,
    Call.glfwTerminate ]

/-- Everything `main` does before the render loop on the path where the window and the
function loader are both there. -/
def setupCalls (env : Env) : List Call :=
  initCalls ++ contextCalls ++ bufferCalls ++ textureCalls env.stbi_load

/-- The function `main` (lines 12-147): the calls it issues, in order, and its return
value.  `none` means the render loop was still running when the fuel ran out. -/
def main (env : Env) (fuel : Nat) : Option (List Call × Int) :=
  match env.glfwCreateWindow with
  | none =>
    some (initCalls ++ [Call.print "Failed to create GLFW window", Call.glfwTerminate], -1)
  | some window =>
    if !env.gladLoadGLLoader then
      some (initCalls ++ contextCalls ++ [Call.print "Failed to initialise GLAD"], -1)
    else
      match renderLoop env fuel 0 window with
      | none => none
      | some loop => some (setupCalls env ++ loop ++ teardownCalls, 0)

/-! ## Derived notions used to state the properties -/

/-- The window state at the `n`-th evaluation of the loop condition, when the loop was
started at frame `i` in state `w` and has not stopped before. -/
def windowAt (env : Env) (i : Nat) (w : Window) : Nat → Window
  | 0 => w
  | n + 1 => windowAt env (i + 1) (frame env i w).2 n

/-- The calls of the first `n` iterations of the loop from frame `i` on: `n` times the
loop-condition call followed by the calls of a frame. -/
def framesCalls (env : Env) (i : Nat) (w : Window) : Nat → List Call
  | 0 => []
  | n + 1 => Call.glfwWindowShouldClose :: (frame env i w).1 ++
      framesCalls env (i + 1) (frame env i w).2 n

/-- The calls of a loop that runs exactly `n` frames from frame `i` on and then finds the
loop condition false. -/
def loopCalls (env : Env) (i : Nat) (w : Window) (n : Nat) : List Call :=
  framesCalls env i w n ++ [Call.glfwWindowShouldClose]

/-- The window is first found closed at the `n`-th evaluation of the loop condition. -/
def closesAt (env : Env) (w : Window) (n : Nat) : Prop :=
  (∀ k, k < n → (windowAt env 0 w k).shouldClose = false) ∧
  (windowAt env 0 w n).shouldClose = true

/-- Whether the window is first found closed at check `n` can be computed. -/
instance closesAtDecidable (env : Env) (w : Window) (n : Nat) :
    Decidable (closesAt env w n) := by
  unfold closesAt
  infer_instance

/-- The kinds of call a frame can issue: the key query and the flag write of
`processInput`, clearing, binding the texture and the vertex array, using the shader,
drawing, swapping, polling, and the viewport call of the resize callback. -/
def Call.isFrameCall : Call → Bool
  | Call.glfwGetKey _ => true
  | Call.glfwSetWindowShouldClose v => v
  | Call.glClearColor _ _ _ _ => true
  | Call.glClear _ => true
  | Call.glActiveTexture _ => true
  | Call.glBindTexture _ _ => true
  | Call.shader_use => true
  | Call.glBindVertexArray _ => true
  | Call.glDrawElements _ _ _ _ => true
  | Call.glfwSwapBuffers => true
  | Call.glfwPollEvents => true
  | Call.glViewport _ _ _ _ => true
  | _ => false

/-- The value of GL_UNPACK_ALIGNMENT during the upload of line 92.  The program never
calls `glPixelStorei`, so it is OpenGL's initial value 4. -/
def unpackAlignment : Nat := 4

/-- Bytes of one row of GL_RGB / GL_UNSIGNED_BYTE pixels. -/
def rowBytes (width : Nat) : Nat := 3 * width

/-- Distance in bytes between the starts of two rows: `rowBytes` rounded up to a multiple
of the unpack alignment. -/
def rowStride (width : Nat) : Nat :=
  (rowBytes width + unpackAlignment - 1) / unpackAlignment * unpackAlignment

/-- Number of bytes the upload `glTexImage2D(.., width, height, 0, GL_RGB,
GL_UNSIGNED_BYTE, data)` of line 92 reads from `data`: `height` rows of `3 * width` bytes,
every row but the last followed by the padding up to the unpack alignment.  The format is
the fixed GL_RGB of the call; `nrChannels` does not enter. -/
def texImage2DBytesRead (width height : Nat) : Nat :=
  (height - 1) * rowStride width + rowBytes width

/-- Number of bytes in the buffer `stbi_load` returned. -/
def Image.bufferSize (img : Image) : Nat := img.width * img.height * img.nrChannels

/-- What OpenGL fetches for attribute `a` of vertex `i` from the uploaded `triangle` data:
`a.size` floats starting at byte `i * a.stride + a.offset`. -/
def attribValue (a : VertexAttrib) (i : Nat) : List ℚ :=
  (triangle.drop ((i * a.stride + a.offset) / sizeofFloat)).take a.size

/-- The x and y of the position attribute of vertex `i`. -/
def position (i : Nat) : ℚ × ℚ :=
  ((attribValue positionAttrib i).getD 0 0, (attribValue positionAttrib i).getD 1 0)

/-- The u and v of the texture coordinates attribute of vertex `i`. -/
def texCoord (i : Nat) : ℚ × ℚ :=
  ((attribValue texCoordAttrib i).getD 0 0, (attribValue texCoordAttrib i).getD 1 0)

/-- The `k`-th triangle `glDrawElements(GL_TRIANGLES, ..)` assembles: the indices at
`3k`, `3k + 1`, `3k + 2`. -/
def drawnTriangle (k : Nat) : List Nat := (indices.drop (3 * k)).take 3

/-- Twice-halved cross product: the signed area of the triangle `a b c`, positive when
counter-clockwise. -/
def signedArea (a b c : ℚ × ℚ) : ℚ :=
  ((b.1 - a.1) * (c.2 - a.2) - (c.1 - a.1) * (b.2 - a.2)) / 2

/-- The signed area of a triangle given by three vertex indices. -/
def triangleArea : List Nat → ℚ
  | [a, b, c] => signedArea (position a) (position b) (position c)
  | _ => 0

/-- The three undirected edges of a triangle given by three vertex indices, each as a
pair with the smaller index first. -/
def triangleEdges : List Nat → List (Nat × Nat)
  | [a, b, c] => [(min a b, max a b), (min b c, max b c), (min c a, max c a)]
  | _ => []

/-! ## Environments used as concrete runs -/

/-- Every `glfwPollEvents` reports that the user asked to close the window. -/
def closeEvents : Nat → Events :=
  fun _ => { escapeKey := false, closeRequested := true, resize := none }

/-- Every `glfwPollEvents` reports the escape key as pressed, and nothing else. -/
def escapeEvents : Nat → Events :=
  fun _ => { escapeKey := true, closeRequested := false, resize := none }

/-- A freshly created window: flag clear, no key pressed. -/
def freshWindow : Window := { shouldClose := false, escapeKey := false }

/-- A run in which `glfwCreateWindow` returns NULL. -/
def envNoWindow : Env :=
  { glfwCreateWindow := none, gladLoadGLLoader := true,
    stbi_load := some { width := 4, height := 4, nrChannels := 4 }, events := closeEvents }

/-- A run in which `gladLoadGLLoader` returns false. -/
def envNoGlad : Env :=
  { glfwCreateWindow := some freshWindow, gladLoadGLLoader := false,
    stbi_load := some { width := 4, height := 4, nrChannels := 4 }, events := closeEvents }

/-- A run in which `stbi_load` returns NULL and the window is closed during the first
frame. -/
def envNoTexture : Env :=
  { glfwCreateWindow := some freshWindow, gladLoadGLLoader := true,
    stbi_load := none, events := closeEvents }

/-- A run in which everything loads and the window is closed during the first frame. -/
def envClose : Env :=
  { glfwCreateWindow := some freshWindow, gladLoadGLLoader := true,
    stbi_load := some { width := 4, height := 4, nrChannels := 4 }, events := closeEvents }

/-- A run in which everything loads and the escape key is down from the first
`glfwPollEvents` on. -/
def envEscape : Env :=
  { glfwCreateWindow := some freshWindow, gladLoadGLLoader := true,
    stbi_load := some { width := 4, height := 4, nrChannels := 4 }, events := escapeEvents }

/-! ## Lemmas on the render loop -/

theorem windowAt_succ_last (env : Env) (n : Nat) :
    ∀ i w, windowAt env i w (n + 1) = (frame env (i + n) (windowAt env i w n)).2 := by
  induction n with
  | zero => intro i w; rfl
  | succ n ih =>
    intro i w
    have h := ih (i + 1) (frame env i w).2
    have e : i + 1 + n = i + (n + 1) := by omega
    rw [e] at h
    exact h

theorem framesCalls_succ_last (env : Env) (n : Nat) :
    ∀ i w, framesCalls env i w (n + 1) =
      framesCalls env i w n ++
        Call.glfwWindowShouldClose :: (frame env (i + n) (windowAt env i w n)).1 := by
  induction n with
  | zero => intro i w; simp [framesCalls, windowAt]
  | succ n ih =>
    intro i w
    have h := ih (i + 1) (frame env i w).2
    have e : i + 1 + n = i + (n + 1) := by omega
    rw [e] at h
    show Call.glfwWindowShouldClose :: (frame env i w).1 ++
        framesCalls env (i + 1) (frame env i w).2 (n + 1) = _
    rw [h]
    simp [framesCalls, windowAt]

/-- The loop returns after exactly `n` frames when the flag is first found set at the
`n`-th check and there is fuel for `n + 1` checks. -/
theorem renderLoop_of_closes (env : Env) (n : Nat) :
    ∀ fuel i w, (∀ k, k < n → (windowAt env i w k).shouldClose = false) →
      (windowAt env i w n).shouldClose = true → n < fuel →
      renderLoop env fuel i w = some (loopCalls env i w n) := by
  induction n with
  | zero =>
    intro fuel i w _ hn hf
    obtain ⟨f, rfl⟩ : ∃ f, fuel = f + 1 := ⟨fuel - 1, by omega⟩
    have hw : w.shouldClose = true := hn
    simp [renderLoop, glfwWindowShouldClose, hw, loopCalls, framesCalls]
  | succ n ih =>
    intro fuel i w hk hn hf
    obtain ⟨f, rfl⟩ : ∃ f, fuel = f + 1 := ⟨fuel - 1, by omega⟩
    have hw : w.shouldClose = false := hk 0 (by omega)
    have h := ih f (i + 1) (frame env i w).2
      (fun k hlt => hk (k + 1) (by omega)) hn (by omega)
    simp [renderLoop, glfwWindowShouldClose, hw, h, loopCalls, framesCalls]

/-- Every call of a frame is one of the kinds listed in `Call.isFrameCall`. -/
theorem frame_calls (env : Env) (i : Nat) (w : Window) :
    ∀ c ∈ (frame env i w).1, c.isFrameCall = true := by
  have h : ((frame env i w).1).all Call.isFrameCall = true := by
    simp only [frame, processInput, glfwPollEvents, glfwSwapBuffers, escapePressed,
      framebuffer_size_callback, drawCalls]
    rcases Bool.eq_false_or_eq_true w.escapeKey with hesc | hesc <;>
      cases hres : (env.events i).resize <;>
      simp [hesc, Call.isFrameCall]
  exact fun c hc => List.all_eq_true.mp h c hc

/-- A call of a frame generates nothing, deletes nothing, uploads nothing, prints
nothing, and never writes `false` to the should-close flag. -/
theorem frameCall_inert (c : Call) (h : c.isFrameCall = true) :
    c.generated = none ∧ c.deleted = none ∧ c.isBufferData = false ∧
    c.isTexImage2D = false ∧ c.isGenerateMipmap = false ∧ c.isShaderLoad = false ∧
    c.message = none ∧ c.isTerminate = false ∧ c.isLoopCheck = false ∧
    c.closeFlagWritten ≠ some false := by
  cases c <;>
    simp_all [Call.isFrameCall, Call.generated, Call.deleted, Call.isBufferData,
      Call.isTexImage2D, Call.isGenerateMipmap, Call.isShaderLoad, Call.message,
      Call.isTerminate, Call.isLoopCheck, Call.closeFlagWritten]

/-- Every call of the loop is the loop-condition call or a call of a frame. -/
theorem framesCalls_calls (env : Env) (n : Nat) :
    ∀ i w, ∀ c ∈ framesCalls env i w n, c.isLoopCheck = true ∨ c.isFrameCall = true := by
  induction n with
  | zero => intro i w c hc; simp [framesCalls] at hc
  | succ n ih =>
    intro i w c hc
    simp only [framesCalls, List.cons_append, List.mem_cons, List.mem_append] at hc
    rcases hc with h | h | h
    · subst h; exact Or.inl rfl
    · exact Or.inr (frame_calls env i w c h)
    · exact ih _ _ c h

theorem loopCalls_calls (env : Env) (i : Nat) (w : Window) (n : Nat) :
    ∀ c ∈ loopCalls env i w n, c.isLoopCheck = true ∨ c.isFrameCall = true := by
  intro c hc
  simp only [loopCalls, List.mem_append, List.mem_singleton] at hc
  rcases hc with h | h
  · exact framesCalls_calls env n i w c h
  · subst h; exact Or.inl rfl

/-- A property that fails on the loop-condition call and on every call of a frame is
counted zero times in the loop. -/
theorem countP_loopCalls_zero (env : Env) (i : Nat) (w : Window) (n : Nat)
    (p : Call → Bool) (hcheck : p Call.glfwWindowShouldClose = false)
    (hframe : ∀ c, c.isFrameCall = true → p c = false) :
    (loopCalls env i w n).countP p = 0 := by
  rw [List.countP_eq_zero]
  intro c hc
  rcases loopCalls_calls env i w n c hc with h | h
  · cases c <;> simp_all [Call.isLoopCheck]
  · simp [hframe c h]

/-- The loop prints nothing. -/
theorem printed_loopCalls (env : Env) (i : Nat) (w : Window) (n : Nat) :
    printed (loopCalls env i w n) = [] := by
  unfold printed
  rw [List.filterMap_eq_nil_iff]
  intro c hc
  rcases loopCalls_calls env i w n c hc with h | h
  · cases c <;> simp_all [Call.isLoopCheck, Call.message]
  · exact (frameCall_inert c h).2.2.2.2.2.2.1

/-- One frame issues one draw call, two bind calls and no loop-condition call. -/
theorem frame_counts (env : Env) (i : Nat) (w : Window) :
    ((frame env i w).1).countP Call.isDraw = 1 ∧
    ((frame env i w).1).countP Call.isBind = 2 ∧
    ((frame env i w).1).countP Call.isLoopCheck = 0 := by
  simp only [frame, processInput, glfwPollEvents, glfwSwapBuffers, escapePressed,
    framebuffer_size_callback, drawCalls]
  rcases Bool.eq_false_or_eq_true w.escapeKey with hesc | hesc <;>
    cases hres : (env.events i).resize <;>
    simp [hesc, List.countP_cons, Call.isDraw, Call.isBind, Call.isLoopCheck]

/-- A loop of `n` frames issues `n` draw calls, `2 n` bind calls and `n + 1`
loop-condition calls. -/
theorem loopCalls_counts (env : Env) (n : Nat) :
    ∀ i w, (loopCalls env i w n).countP Call.isDraw = n ∧
      (loopCalls env i w n).countP Call.isBind = 2 * n ∧
      (loopCalls env i w n).countP Call.isLoopCheck = n + 1 := by
  induction n with
  | zero => intro i w; simp [loopCalls, framesCalls, List.countP_cons, Call.isDraw,
      Call.isBind, Call.isLoopCheck]
  | succ n ih =>
    intro i w
    obtain ⟨h1, h2, h3⟩ := ih (i + 1) (frame env i w).2
    obtain ⟨f1, f2, f3⟩ := frame_counts env i w
    simp only [loopCalls, framesCalls, List.cons_append, List.append_assoc,
      List.countP_cons, List.countP_append] at h1 h2 h3 ⊢
    simp only [f1, f2, f3]
    simp [Call.isDraw, Call.isBind, Call.isLoopCheck] at h1 h2 h3 ⊢
    omega

/-- On the path where the window and the loader are there, `main` returns 0 with the
calls of setup, loop and teardown, as soon as the window is closed. -/
theorem main_of_closes (env : Env) (w : Window) (n fuel : Nat)
    (hw : env.glfwCreateWindow = some w) (hg : env.gladLoadGLLoader = true)
    (hc : closesAt env w n) (hf : n < fuel) :
    main env fuel = some (setupCalls env ++ loopCalls env 0 w n ++ teardownCalls, 0) := by
  have h := renderLoop_of_closes env n fuel 0 w hc.1 hc.2 hf
  simp [main, hw, hg, h]

/-- Counts over the calls before the loop; they depend on the environment only through
the result of `stbi_load`. -/
theorem setupCalls_counts (env : Env) :
    (setupCalls env).countP Call.isLoopCheck = 0 ∧
    (setupCalls env).countP Call.isDraw = 0 ∧
    (setupCalls env).countP Call.isGenerate = 4 ∧
    (setupCalls env).countP Call.isDelete = 0 ∧
    (∀ h, (setupCalls env).countP (Call.generates h) = 1) ∧
    (∀ h, (setupCalls env).countP (Call.deletes h) = 0) := by
  unfold setupCalls
  cases env.stbi_load with
  | none =>
    refine ⟨rfl, rfl, rfl, rfl, ?_, ?_⟩ <;> intro h <;> cases h <;> rfl
  | some img =>
    refine ⟨rfl, rfl, rfl, rfl, ?_, ?_⟩ <;> intro h <;> cases h <;> rfl

/-- What the calls before the loop print and upload, by the result of `stbi_load`. -/
theorem setupCalls_texture (env : Env) :
    (env.stbi_load = none →
      printed (setupCalls env) = ["Failed to load texture"] ∧
      (setupCalls env).countP Call.isTexImage2D = 0 ∧
      (setupCalls env).countP Call.isGenerateMipmap = 0) ∧
    (∀ img, env.stbi_load = some img →
      printed (setupCalls env) = [] ∧
      (setupCalls env).countP Call.isTexImage2D = 1 ∧
      (setupCalls env).countP Call.isGenerateMipmap = 1) := by
  unfold setupCalls
  constructor
  · intro h
    rw [h]
    exact ⟨rfl, rfl, rfl⟩
  · intro img h
    rw [h]
    exact ⟨rfl, rfl, rfl⟩

/-- Whatever the fuel, a loop that returns has issued only loop-condition calls and calls
of a frame. -/
theorem renderLoop_calls (env : Env) (fuel : Nat) :
    ∀ i w t, renderLoop env fuel i w = some t →
      ∀ c ∈ t, c.isLoopCheck = true ∨ c.isFrameCall = true := by
  induction fuel with
  | zero => intro i w t h; simp [renderLoop] at h
  | succ fuel ih =>
    intro i w t h c hc
    simp only [renderLoop] at h
    split at h
    · cases h
      simp only [List.mem_singleton] at hc
      subst hc
      exact Or.inl rfl
    · cases hrest : renderLoop env fuel (i + 1) (frame env i w).2 with
      | none => simp [hrest] at h
      | some rest =>
        simp only [hrest, Option.map_some', Option.some.injEq] at h
        subst h
        simp only [List.cons_append, List.mem_cons, List.mem_append] at hc
        rcases hc with h1 | h1 | h1
        · subst h1; exact Or.inl rfl
        · exact Or.inr (frame_calls env i w c h1)
        · exact ih _ _ rest hrest c h1

/-- No call before the loop and no call after it writes the should-close flag. -/
theorem setup_teardown_no_flag_write (env : Env) :
    (∀ c ∈ setupCalls env, c.closeFlagWritten = none) ∧
    (∀ c ∈ teardownCalls, c.closeFlagWritten = none) := by
  have h1 : (setupCalls env).all (fun c => c.closeFlagWritten.isNone) = true := by
    unfold setupCalls
    cases env.stbi_load <;> rfl
  have h2 : teardownCalls.all (fun c => c.closeFlagWritten.isNone) = true := rfl
  constructor
  · intro c hc
    exact Option.isNone_iff_eq_none.mp (List.all_eq_true.mp h1 c hc)
  · intro c hc
    exact Option.isNone_iff_eq_none.mp (List.all_eq_true.mp h2 c hc)

theorem envNoTexture_closesAt : closesAt envNoTexture freshWindow 1 := by decide

theorem envClose_closesAt : closesAt envClose freshWindow 1 := by decide

/-! ## The properties -/

/-- C1: for each of the two fatal setup failures of `main` (`glfwCreateWindow` returns
NULL; `gladLoadGLLoader` returns false), whatever the fuel, `main` returns -1, prints
exactly that failure's message, and on that path issues no shader load, no generate call,
no loop-condition call and no call of a frame (so no bind and no draw call). -/
theorem main_fatal_setup_failure (env : Env) (fuel : Nat) :
    (env.glfwCreateWindow = none →
      ∃ t, main env fuel = some (t, -1) ∧
        printed t = ["Failed to create GLFW window"] ∧
        ∀ c ∈ t, c.isShaderLoad = false ∧ c.isGenerate = false ∧
          c.isLoopCheck = false ∧ c.isFrameCall = false) ∧
    (∀ w, env.glfwCreateWindow = some w → env.gladLoadGLLoader = false →
      ∃ t, main env fuel = some (t, -1) ∧
        printed t = ["Failed to initialise GLAD"] ∧
        ∀ c ∈ t, c.isShaderLoad = false ∧ c.isGenerate = false ∧
          c.isLoopCheck = false ∧ c.isFrameCall = false) := by
  constructor
  · intro hw
    refine ⟨initCalls ++ [Call.print "Failed to create GLFW window", Call.glfwTerminate],
      by simp only [main, hw], rfl, ?_⟩
    intro c hc
    simp only [initCalls, List.cons_append, List.nil_append, List.mem_cons,
      List.mem_singleton, List.not_mem_nil, or_false] at hc
    rcases hc with h | h | h | h | h | h | h <;> subst h <;> exact ⟨rfl, rfl, rfl, rfl⟩
  · intro w hw hg
    refine ⟨initCalls ++ contextCalls ++ [Call.print "Failed to initialise GLAD"],
      by simp [main, hw, hg], rfl, ?_⟩
    intro c hc
    simp only [initCalls, contextCalls, List.cons_append, List.nil_append, List.mem_cons,
      List.mem_singleton, List.not_mem_nil, or_false] at hc
    rcases hc with h | h | h | h | h | h | h | h | h <;> subst h <;>
      exact ⟨rfl, rfl, rfl, rfl⟩

/-- Witness of C1: the two failures at the runs `envNoWindow` and `envNoGlad`. -/
theorem main_fatal_setup_failure_witness :
    (∃ t, main envNoWindow 0 = some (t, -1) ∧
      printed t = ["Failed to create GLFW window"] ∧
      ∀ c ∈ t, c.isShaderLoad = false ∧ c.isGenerate = false ∧
        c.isLoopCheck = false ∧ c.isFrameCall = false) ∧
    (∃ t, main envNoGlad 0 = some (t, -1) ∧
      printed t = ["Failed to initialise GLAD"] ∧
      ∀ c ∈ t, c.isShaderLoad = false ∧ c.isGenerate = false ∧
        c.isLoopCheck = false ∧ c.isFrameCall = false) :=
  ⟨(main_fatal_setup_failure envNoWindow 0).1 rfl,
   (main_fatal_setup_failure envNoGlad 0).2 freshWindow rfl rfl⟩

/-- C2: on the path where the window and the loader are there, a NULL result of
`stbi_load` is not fatal.  Once the window is closed (first found closed at the `n`-th
loop check), `main` returns 0, having evaluated the loop condition `n + 1` times and drawn
`n` frames (at least one when the window starts open).  When `stbi_load` returned NULL the
only message printed is "Failed to load texture" and neither `glTexImage2D` nor
`glGenerateMipmap` is issued; when it returned an image nothing is printed and each of the
two is issued exactly once. -/
theorem texture_load_failure_not_fatal (env : Env) (w : Window) (n fuel : Nat)
    (hw : env.glfwCreateWindow = some w) (hg : env.gladLoadGLLoader = true)
    (hc : closesAt env w n) (hf : n < fuel) :
    ∃ t, main env fuel = some (t, 0) ∧
      t.countP Call.isLoopCheck = n + 1 ∧ t.countP Call.isDraw = n ∧
      (w.shouldClose = false → 0 < n) ∧
      (env.stbi_load = none →
        printed t = ["Failed to load texture"] ∧
        t.countP Call.isTexImage2D = 0 ∧ t.countP Call.isGenerateMipmap = 0) ∧
      (∀ img, env.stbi_load = some img →
        printed t = [] ∧
        t.countP Call.isTexImage2D = 1 ∧ t.countP Call.isGenerateMipmap = 1) := by
  refine ⟨setupCalls env ++ loopCalls env 0 w n ++ teardownCalls,
    main_of_closes env w n fuel hw hg hc hf, ?_, ?_, ?_, ?_, ?_⟩
  · rw [List.countP_append, List.countP_append, (setupCalls_counts env).1,
      (loopCalls_counts env n 0 w).2.2]
    have h0 : teardownCalls.countP Call.isLoopCheck = 0 := rfl
    omega
  · rw [List.countP_append, List.countP_append, (setupCalls_counts env).2.1,
      (loopCalls_counts env n 0 w).1]
    simp [teardownCalls, List.countP_cons, Call.isDraw]
  · intro hopen
    rcases Nat.eq_zero_or_pos n with h0 | h0
    · subst h0
      have h := hc.2
      simp only [windowAt] at h
      rw [h] at hopen
      cases hopen
    · exact h0
  · intro hnone
    obtain ⟨p1, p2, p3⟩ := (setupCalls_texture env).1 hnone
    have z1 := countP_loopCalls_zero env 0 w n Call.isTexImage2D rfl
      (fun c h => (frameCall_inert c h).2.2.2.1)
    have z2 := countP_loopCalls_zero env 0 w n Call.isGenerateMipmap rfl
      (fun c h => (frameCall_inert c h).2.2.2.2.1)
    refine ⟨?_, ?_, ?_⟩
    · unfold printed at p1 ⊢
      rw [List.filterMap_append, List.filterMap_append, p1]
      have := printed_loopCalls env 0 w n
      unfold printed at this
      rw [this]
      rfl
    · rw [List.countP_append, List.countP_append, p2, z1]; rfl
    · rw [List.countP_append, List.countP_append, p3, z2]; rfl
  · intro img himg
    obtain ⟨p1, p2, p3⟩ := (setupCalls_texture env).2 img himg
    have z1 := countP_loopCalls_zero env 0 w n Call.isTexImage2D rfl
      (fun c h => (frameCall_inert c h).2.2.2.1)
    have z2 := countP_loopCalls_zero env 0 w n Call.isGenerateMipmap rfl
      (fun c h => (frameCall_inert c h).2.2.2.2.1)
    refine ⟨?_, ?_, ?_⟩
    · unfold printed at p1 ⊢
      rw [List.filterMap_append, List.filterMap_append, p1]
      have := printed_loopCalls env 0 w n
      unfold printed at this
      rw [this]
      rfl
    · rw [List.countP_append, List.countP_append, p2, z1]; rfl
    · rw [List.countP_append, List.countP_append, p3, z2]; rfl

/-- Witness of C2: the run `envNoTexture`, where `stbi_load` returns NULL and the window
is closed during the first frame, with fuel for two loop checks. -/
theorem texture_load_failure_not_fatal_witness :
    closesAt envNoTexture freshWindow 1 ∧
    ∃ t, main envNoTexture 2 = some (t, 0) ∧
      t.countP Call.isLoopCheck = 1 + 1 ∧ t.countP Call.isDraw = 1 ∧
      (freshWindow.shouldClose = false → 0 < 1) ∧
      (envNoTexture.stbi_load = none →
        printed t = ["Failed to load texture"] ∧
        t.countP Call.isTexImage2D = 0 ∧ t.countP Call.isGenerateMipmap = 0) ∧
      (∀ img, envNoTexture.stbi_load = some img →
        printed t = [] ∧
        t.countP Call.isTexImage2D = 1 ∧ t.countP Call.isGenerateMipmap = 1) :=
  ⟨envNoTexture_closesAt,
   texture_load_failure_not_fatal envNoTexture freshWindow 1 2 rfl rfl
     envNoTexture_closesAt (by decide)⟩

/-- C3: on the path where the window and the loader are there, once the window is closed
after any number `n` of frames, `main` returns the calls of setup, then the loop, then
teardown.  Each of the four handles is generated by exactly one call, there are four
generate calls in all, every one of them is in the setup part, which holds no
loop-condition call; and the loop, for every `n`, holds only loop-condition calls and
calls of a frame, none of which is a generate, delete, `glBufferData` or `glTexImage2D`
call, with one draw call and two bind calls per frame. -/
theorem handles_generated_once_before_loop (env : Env) (w : Window) (n fuel : Nat)
    (hw : env.glfwCreateWindow = some w) (hg : env.gladLoadGLLoader = true)
    (hc : closesAt env w n) (hf : n < fuel) :
    main env fuel = some (setupCalls env ++ loopCalls env 0 w n ++ teardownCalls, 0) ∧
    (∀ h, (setupCalls env ++ loopCalls env 0 w n ++ teardownCalls).countP
      (Call.generates h) = 1) ∧
    (setupCalls env ++ loopCalls env 0 w n ++ teardownCalls).countP Call.isGenerate = 4 ∧
    (∀ h, (setupCalls env).countP (Call.generates h) = 1) ∧
    (setupCalls env).countP Call.isLoopCheck = 0 ∧
    (∀ c ∈ loopCalls env 0 w n,
      (c.isLoopCheck = true ∨ c.isFrameCall = true) ∧
      c.isGenerate = false ∧ c.isDelete = false ∧
      c.isBufferData = false ∧ c.isTexImage2D = false) ∧
    (loopCalls env 0 w n).countP Call.isDraw = n ∧
    (loopCalls env 0 w n).countP Call.isBind = 2 * n := by
  have hs := setupCalls_counts env
  have zgen : ∀ h, (loopCalls env 0 w n).countP (Call.generates h) = 0 := fun h =>
    countP_loopCalls_zero env 0 w n (Call.generates h) rfl
      (fun c hc => by simp [Call.generates, (frameCall_inert c hc).1])
  have zany : (loopCalls env 0 w n).countP Call.isGenerate = 0 :=
    countP_loopCalls_zero env 0 w n Call.isGenerate rfl
      (fun c hc => by simp [Call.isGenerate, (frameCall_inert c hc).1])
  refine ⟨main_of_closes env w n fuel hw hg hc hf, ?_, ?_, hs.2.2.2.2.1, hs.1, ?_,
    (loopCalls_counts env n 0 w).1, (loopCalls_counts env n 0 w).2.1⟩
  · intro h
    rw [List.countP_append, List.countP_append, hs.2.2.2.2.1 h, zgen h]
    cases h <;> rfl
  · rw [List.countP_append, List.countP_append, hs.2.2.1, zany]
    rfl
  · intro c hcmem
    have hkind := loopCalls_calls env 0 w n c hcmem
    refine ⟨hkind, ?_⟩
    rcases hkind with h | h
    · cases c <;> simp_all [Call.isLoopCheck, Call.isGenerate, Call.isDelete,
        Call.generated, Call.deleted, Call.isBufferData, Call.isTexImage2D]
    · obtain ⟨g, d, b, x, _⟩ := frameCall_inert c h
      simp [Call.isGenerate, Call.isDelete, g, d, b, x]

/-- Witness of C3: the run `envClose`, closed during the first frame. -/
theorem handles_generated_once_before_loop_witness :
    closesAt envClose freshWindow 1 ∧
    main envClose 2 =
      some (setupCalls envClose ++ loopCalls envClose 0 freshWindow 1 ++ teardownCalls, 0) ∧
    (∀ h, (setupCalls envClose).countP (Call.generates h) = 1) ∧
    (loopCalls envClose 0 freshWindow 1).countP Call.isDraw = 1 :=
  have h := handles_generated_once_before_loop envClose freshWindow 1 2 rfl rfl
    envClose_closesAt (by decide)
  ⟨envClose_closesAt, h.1, h.2.2.2.1, h.2.2.2.2.2.2.1⟩

/-- C4 (what the code does): in the run `envClose`, where everything loads and the window
is closed during the first frame, `main` returns 0 after a teardown that deletes the
vertex array, the vertex buffer and the element buffer once each, before the one
`glfwTerminate`; the texture handle, generated once, is deleted by no call. -/
theorem teardown_leaves_texture :
    ∃ t, main envClose 2 = some (t, 0) ∧
      t.countP (Call.generates Handle.texture) = 1 ∧
      t.countP (Call.deletes Handle.texture) = 0 ∧
      t.countP (Call.deletes Handle.VAO) = 1 ∧
      t.countP (Call.deletes Handle.VBO) = 1 ∧
      t.countP (Call.deletes Handle.EBO) = 1 ∧
      t.countP Call.isDelete = 3 ∧
      teardownCalls.countP Call.isDelete = 3 ∧
      teardownCalls.getLast? = some Call.glfwTerminate :=
  ⟨setupCalls envClose ++ loopCalls envClose 0 freshWindow 1 ++ teardownCalls,
    rfl, rfl, rfl, rfl, rfl, rfl, rfl, rfl, rfl⟩

/-- C5: `processInput` writes `true` to the should-close flag exactly when the escape key
is reported as pressed, and otherwise leaves the window state as it is; no call that
`main` issues writes `false` to the flag and a frame never clears it; a frame in which
escape is pressed issues all its calls (input, clear, binds, draw, swap, poll), leaves the
flag set, and the next loop check ends the loop; so when escape is first pressed in frame
`k` of an open window, `main` returns 0 with frame `k` as the last frame, followed by one
loop check and teardown. -/
theorem escape_frame_is_last (env : Env) :
    (∀ w, ((∃ c ∈ (processInput w).1, c.closeFlagWritten = some true) ↔
          escapePressed w = true) ∧
        (escapePressed w = true → (processInput w).2 = { w with shouldClose := true }) ∧
        (escapePressed w = false → (processInput w).2 = w)) ∧
    (∀ fuel t r, main env fuel = some (t, r) → ∀ c ∈ t, c.closeFlagWritten ≠ some false) ∧
    (∀ i w, w.shouldClose = true → (frame env i w).2.shouldClose = true) ∧
    (∀ i w, escapePressed w = true →
      (frame env i w).1 =
        [Call.glfwGetKey GLenum.GLFW_KEY_ESCAPE, Call.glfwSetWindowShouldClose true] ++
          drawCalls ++ [Call.glfwSwapBuffers, Call.glfwPollEvents] ++
          (glfwPollEvents (env.events i) (glfwSetWindowShouldClose w true)).1 ∧
      (frame env i w).2.shouldClose = true ∧
      ∀ fuel, renderLoop env (fuel + 1) (i + 1) (frame env i w).2 =
        some [Call.glfwWindowShouldClose]) ∧
    (∀ w k fuel, env.glfwCreateWindow = some w → env.gladLoadGLLoader = true →
      (∀ j, j ≤ k → (windowAt env 0 w j).shouldClose = false) →
      escapePressed (windowAt env 0 w k) = true → k + 1 < fuel →
      main env fuel = some (setupCalls env ++
        (framesCalls env 0 w k ++
          Call.glfwWindowShouldClose :: (frame env k (windowAt env 0 w k)).1 ++
          [Call.glfwWindowShouldClose]) ++ teardownCalls, 0)) := by
  have hframe : ∀ i w, escapePressed w = true → (frame env i w).2.shouldClose = true := by
    intro i w h
    simp only [escapePressed] at h
    simp [frame, processInput, escapePressed, h, glfwSwapBuffers, glfwPollEvents,
      glfwSetWindowShouldClose]
  refine ⟨?_, ?_, ?_, ?_, ?_⟩
  · intro w
    rcases Bool.eq_false_or_eq_true w.escapeKey with h | h <;>
      simp [processInput, escapePressed, h, glfwSetWindowShouldClose,
        Call.closeFlagWritten]
  · intro fuel t r hmain c hc
    unfold main at hmain
    cases hwin : env.glfwCreateWindow with
    | none =>
      simp only [hwin, Option.some.injEq, Prod.mk.injEq] at hmain
      obtain ⟨rfl, _⟩ := hmain
      simp only [initCalls, List.cons_append, List.nil_append, List.mem_cons,
        List.mem_singleton, List.not_mem_nil, or_false] at hc
      rcases hc with h | h | h | h | h | h | h <;> subst h <;>
        simp [Call.closeFlagWritten]
    | some w =>
      simp only [hwin] at hmain
      cases hglad : env.gladLoadGLLoader with
      | false =>
        simp only [hglad, Bool.not_false, if_true, Option.some.injEq,
          Prod.mk.injEq] at hmain
        obtain ⟨rfl, _⟩ := hmain
        simp only [initCalls, contextCalls, List.cons_append, List.nil_append,
          List.mem_cons, List.mem_singleton, List.not_mem_nil, or_false] at hc
        rcases hc with h | h | h | h | h | h | h | h | h <;> subst h <;>
          simp [Call.closeFlagWritten]
      | true =>
        simp only [hglad, Bool.not_true] at hmain
        cases hloop : renderLoop env fuel 0 w with
        | none => simp [hloop] at hmain
        | some loop =>
          simp only [hloop, Bool.false_eq_true, if_false, Option.some.injEq,
            Prod.mk.injEq] at hmain
          obtain ⟨rfl, _⟩ := hmain
          simp only [List.mem_append] at hc
          rcases hc with (h | h) | h
          · simp [(setup_teardown_no_flag_write env).1 c h]
          · rcases renderLoop_calls env fuel 0 w loop hloop c h with h1 | h1
            · cases c <;> simp_all [Call.isLoopCheck, Call.closeFlagWritten]
            · exact (frameCall_inert c h1).2.2.2.2.2.2.2.2.2
          · simp [(setup_teardown_no_flag_write env).2 c h]
  · intro i w h
    simp [frame, glfwPollEvents, glfwSwapBuffers, processInput, escapePressed,
      glfwSetWindowShouldClose, h]
    split <;> simp [h]
  · intro i w h
    refine ⟨?_, hframe i w h, ?_⟩
    · simp only [escapePressed] at h
      simp [frame, processInput, escapePressed, h, glfwSwapBuffers]
    · intro fuel
      simp [renderLoop, glfwWindowShouldClose, hframe i w h]
  · intro w k fuel hw hg hopen hesc hf
    have hclose : closesAt env w (k + 1) := by
      refine ⟨fun j hj => hopen j (by omega), ?_⟩
      rw [windowAt_succ_last]
      simpa using hframe k (windowAt env 0 w k) hesc
    have h := main_of_closes env w (k + 1) fuel hw hg hclose hf
    rw [h]
    simp [loopCalls, framesCalls_succ_last]

/-- Witness of C5: the run `envEscape`; the escape key is reported pressed in frame 1,
which is drawn and is the last frame. -/
theorem escape_frame_is_last_witness :
    main envEscape 3 = some (setupCalls envEscape ++
      (framesCalls envEscape 0 freshWindow 1 ++
        Call.glfwWindowShouldClose ::
          (frame envEscape 1 (windowAt envEscape 0 freshWindow 1)).1 ++
        [Call.glfwWindowShouldClose]) ++ teardownCalls, 0) :=
  (escape_frame_is_last envEscape).2.2.2.2 freshWindow 1 3 rfl rfl
    (fun j hj => by interval_cases j <;> rfl) rfl (by decide)

/-- The four positions and the four texture coordinates, read off the vertex data. -/
theorem position_values :
    position 0 = (-1/2, 1/2) ∧ position 1 = (1/2, 1/2) ∧
    position 2 = (1/2, -1/2) ∧ position 3 = (-1/2, -1/2) := by
  simp only [position, attribValue, positionAttrib, triangle, sizeofFloat]
  norm_num

theorem texCoord_values :
    texCoord 0 = (0, 1) ∧ texCoord 1 = (1, 1) ∧ texCoord 2 = (1, 0) ∧ texCoord 3 = (0, 0) := by
  simp only [texCoord, attribValue, texCoordAttrib, triangle, sizeofFloat]
  norm_num

/-- C6: the draw call is consistent with the data it indexes.  The frame issues
`glDrawElements(GL_TRIANGLES, 6, GL_UNSIGNED_INT, 0)`, and 6 is the length of `indices`;
`triangle` holds 32 floats, that is 4 vertices of 8 floats (the stride of every
attribute); every element of `indices` is less than 4, so each of the 8 floats of an
indexed vertex lies inside `triangle`; and each of the vertices 0..3 occurs in `indices`. -/
theorem draw_call_matches_data :
    Call.glDrawElements GLenum.GL_TRIANGLES 6 GLenum.GL_UNSIGNED_INT 0 ∈ drawCalls ∧
    drawCount = 6 ∧ drawCount = indices.length ∧
    triangle.length = 32 ∧ triangle.length = 4 * 8 ∧
    (∀ a : Fin vertexAttribs.length, (vertexAttribs.get a).stride = 8 * sizeofFloat) ∧
    (∀ k : Fin indices.length, indices.get k < 4) ∧
    (∀ k : Fin indices.length, ∀ j : Fin 8, 8 * indices.get k + j.val < triangle.length) ∧
    (∀ v : Fin 4, v.val ∈ indices) := by
  refine ⟨by simp [drawCalls, drawCount], rfl, rfl, rfl, rfl, by decide, by decide,
    by decide, by decide⟩

/-- C7: with `sizeof(float) = 4` the three attributes declared with
`glVertexAttribPointer` are 3 floats at byte 0, 3 floats at byte 12 and 2 floats at byte
24, all with stride 32; each begins where the one before ends and the last ends at the
stride, any two are disjoint, every byte of a vertex belongs to exactly one of them, and
for every vertex `i < 4` and every attribute the bytes
`i * 32 + offset .. i * 32 + offset + 4 * size` lie within the 128 bytes that
`glBufferData` uploads. -/
theorem vertex_attributes_tile_stride :
    sizeofFloat = 4 ∧
    positionAttrib = { index := 0, size := 3, stride := 32, offset := 0 } ∧
    colourAttrib = { index := 1, size := 3, stride := 32, offset := 12 } ∧
    texCoordAttrib = { index := 2, size := 2, stride := 32, offset := 24 } ∧
    Call.glVertexAttribPointer positionAttrib ∈ bufferCalls ∧
    Call.glVertexAttribPointer colourAttrib ∈ bufferCalls ∧
    Call.glVertexAttribPointer texCoordAttrib ∈ bufferCalls ∧
    Call.glBufferData GLenum.GL_ARRAY_BUFFER 128 GLenum.GL_STATIC_DRAW ∈ bufferCalls ∧
    positionAttrib.offset + sizeofFloat * positionAttrib.size = colourAttrib.offset ∧
    colourAttrib.offset + sizeofFloat * colourAttrib.size = texCoordAttrib.offset ∧
    texCoordAttrib.offset + sizeofFloat * texCoordAttrib.size = 32 ∧
    (∀ a b : Fin vertexAttribs.length, a = b ∨
      (vertexAttribs.get a).offset + sizeofFloat * (vertexAttribs.get a).size ≤
        (vertexAttribs.get b).offset ∨
      (vertexAttribs.get b).offset + sizeofFloat * (vertexAttribs.get b).size ≤
        (vertexAttribs.get a).offset) ∧
    (∀ byte : Fin 32, (vertexAttribs.filter (fun a =>
      decide (a.offset ≤ byte.val ∧ byte.val < a.offset + sizeofFloat * a.size))).length
        = 1) ∧
    sizeofTriangle = 128 ∧
    (∀ i : Fin 4, ∀ a : Fin vertexAttribs.length,
      i.val * 32 + (vertexAttribs.get a).offset + 4 * (vertexAttribs.get a).size
        ≤ sizeofTriangle) := by
  refine ⟨rfl, rfl, rfl, rfl, by simp [bufferCalls], by simp [bufferCalls],
    by simp [bufferCalls], ?_, rfl, rfl, rfl, by decide, by decide, rfl, by decide⟩
  have h : sizeofTriangle = 128 := rfl
  simp [bufferCalls, h]

/-- C8: the two indexed triangles draw exactly one quad.  The four vertices are the
corners of the square from -1/2 to 1/2 as labelled (0 top left, 1 top right, 2 bottom
right, 3 bottom left), all with z = 0 and pairwise distinct; the triangles are (0,2,3)
and (0,1,2); each has signed area -1/2, so both are non-degenerate with the same winding;
the only edge they share is 0-2, the diagonal, with vertices 1 and 3 on opposite sides of
it; and their areas add up to 1, the area of the square. -/
theorem two_triangles_draw_one_quad :
    attribValue positionAttrib 0 = [-1/2, 1/2, 0] ∧
    attribValue positionAttrib 1 = [1/2, 1/2, 0] ∧
    attribValue positionAttrib 2 = [1/2, -1/2, 0] ∧
    attribValue positionAttrib 3 = [-1/2, -1/2, 0] ∧
    position 0 = (-1/2, 1/2) ∧ position 1 = (1/2, 1/2) ∧
    position 2 = (1/2, -1/2) ∧ position 3 = (-1/2, -1/2) ∧
    (∀ i j : Fin 4, i = j ∨ position i.val ≠ position j.val) ∧
    drawCount = 3 * 2 ∧
    drawnTriangle 0 = [0, 2, 3] ∧ drawnTriangle 1 = [0, 1, 2] ∧
    triangleArea (drawnTriangle 0) = -1/2 ∧ triangleArea (drawnTriangle 1) = -1/2 ∧
    (triangleEdges (drawnTriangle 0)).filter
      (fun e => decide (e ∈ triangleEdges (drawnTriangle 1))) = [(0, 2)] ∧
    signedArea (position 0) (position 2) (position 1) = 1/2 ∧
    signedArea (position 0) (position 2) (position 3) = -1/2 ∧
    |triangleArea (drawnTriangle 0)| + |triangleArea (drawnTriangle 1)| = 1 ∧
    ((position 1).1 - (position 0).1) * ((position 0).2 - (position 3).2) = 1 := by
  obtain ⟨p0, p1, p2, p3⟩ := position_values
  have t0 : drawnTriangle 0 = [0, 2, 3] := rfl
  have t1 : drawnTriangle 1 = [0, 1, 2] := rfl
  have a0 : triangleArea (drawnTriangle 0) = -1/2 := by
    rw [t0]; simp only [triangleArea, signedArea, p0, p2, p3]; norm_num
  have a1 : triangleArea (drawnTriangle 1) = -1/2 := by
    rw [t1]; simp only [triangleArea, signedArea, p0, p1, p2]; norm_num
  refine ⟨?_, ?_, ?_, ?_, p0, p1, p2, p3, ?_, rfl, t0, t1, a0, a1, ?_, ?_, ?_, ?_, ?_⟩
  · simp only [attribValue, positionAttrib, triangle, sizeofFloat]; norm_num
  · simp only [attribValue, positionAttrib, triangle, sizeofFloat]; norm_num
  · simp only [attribValue, positionAttrib, triangle, sizeofFloat]; norm_num
  · simp only [attribValue, positionAttrib, triangle, sizeofFloat]; norm_num
  · intro i j
    fin_cases i <;> fin_cases j <;> simp [p0, p1, p2, p3] <;> norm_num
  · rw [t0, t1]; decide
  · simp only [signedArea, p0, p1, p2]; norm_num
  · simp only [signedArea, p0, p2, p3]; norm_num
  · rw [a0, a1]; norm_num [abs_of_neg]
  · simp only [p0, p1, p3]; norm_num

/-- C9: the texture is mapped once over the quad without flip or rotation.  For each of
the four vertices the texture coordinate is the position shifted by (1/2, 1/2); bottom
left maps to (0,0), top right to (1,1), top left to (0,1) and bottom right to (1,0), the
four corners of the unit square, pairwise distinct; and every texture coordinate lies in
the range 0..1. -/
theorem texture_maps_once_over_quad :
    (∀ i : Fin 4, texCoord i.val = ((position i.val).1 + 1/2, (position i.val).2 + 1/2)) ∧
    texCoord 3 = (0, 0) ∧ texCoord 1 = (1, 1) ∧ texCoord 0 = (0, 1) ∧ texCoord 2 = (1, 0) ∧
    (∀ i j : Fin 4, i = j ∨ texCoord i.val ≠ texCoord j.val) ∧
    (∀ i : Fin 4, 0 ≤ (texCoord i.val).1 ∧ (texCoord i.val).1 ≤ 1 ∧
      0 ≤ (texCoord i.val).2 ∧ (texCoord i.val).2 ≤ 1) := by
  obtain ⟨p0, p1, p2, p3⟩ := position_values
  obtain ⟨c0, c1, c2, c3⟩ := texCoord_values
  refine ⟨?_, c3, c1, c0, c2, ?_, ?_⟩
  · intro i
    fin_cases i <;> simp [p0, p1, p2, p3, c0, c1, c2, c3] <;> norm_num
  · intro i j
    fin_cases i <;> fin_cases j <;> simp [c0, c1, c2, c3, Prod.ext_iff]
  · intro i
    fin_cases i <;> simp [c0, c1, c2, c3]

/-- C10 (what the code does): for a 1 x 1 image with one channel `stbi_load` returns a
buffer of 1 byte and the upload of line 92, fixed to GL_RGB, reads 3 bytes; for a 2 x 2
image with three channels the buffer has 12 bytes and the upload reads 14.  The upload
stays within the buffer for every image with four channels. -/
theorem texImage2D_reads_past_buffer :
    Image.bufferSize { width := 1, height := 1, nrChannels := 1 } = 1 ∧
    texImage2DBytesRead 1 1 = 3 ∧
    Image.bufferSize { width := 2, height := 2, nrChannels := 3 } = 12 ∧
    texImage2DBytesRead 2 2 = 14 ∧
    ¬ (∀ img : Image, 1 ≤ img.width → 1 ≤ img.height → 1 ≤ img.nrChannels →
        img.nrChannels ≤ 4 →
        texImage2DBytesRead img.width img.height ≤ img.bufferSize) ∧
    (∀ width height : Nat, texImage2DBytesRead width (height + 1) ≤
      Image.bufferSize { width := width, height := height + 1, nrChannels := 4 }) := by
  refine ⟨rfl, rfl, rfl, rfl, ?_, ?_⟩
  · intro h
    have h1 := h { width := 1, height := 1, nrChannels := 1 } (by decide) (by decide)
      (by decide) (by decide)
    exact absurd h1 (by decide)
  · intro width height
    simp only [texImage2DBytesRead, rowStride, rowBytes, unpackAlignment, Image.bufferSize,
      Nat.add_sub_cancel]
    have hs : (3 * width + 4 - 1) / 4 * 4 ≤ 4 * width := by omega
    have hm : height * ((3 * width + 4 - 1) / 4 * 4) ≤ height * (4 * width) :=
      Nat.mul_le_mul_left _ hs
    nlinarith [hm]

end LearnOpenGL
